import Mathlib

/-!
Verification of `tefla/core/learning_distributed.py` (class `DistSupervisedTrainer`).

The file shallowly embeds the configuration and sequencing logic of the module:
cluster validation, the synchronous-replica optimizer configuration, the argument
flow from `fit` to `train`, the data-op setup, the constructor's attribute-state
sequence, the per-epoch training/validation loop, the chief-gated actions, the
session acquisition order, and the device-placement of the ops built by `train`.

Framework primitives (TensorFlow) and repository code not present under `src/`
(the `Base` class, the supervisor's blocking semantics, the replica device
placement strategy) are modelled from the spec's description where a claim needs
them; each such definition carries a doc comment saying so.
-/

namespace Tefla

/-- Python-level errors raised by the embedded code paths. `nameError` also covers
`UnboundLocalError` (its subclass), raised when a local variable is read before any
assignment to it has executed. -/
inductive PyError
  | nameError
  | attributeError
  | typeError
  | zeroDivisionError
  | assertionError (msg : String)
  deriving DecidableEq, Repr

/-- Cluster specification as consumed by `train` via `cluster_spec.as_dict()`:
the list of worker process addresses and the list of parameter-server addresses. -/
structure ClusterSpec where
  worker : List String
  ps : List String
  deriving DecidableEq, Repr

/-- Line 150: `num_workers = len(cluster_spec.as_dict()['worker'])`. -/
def numWorkers (cs : ClusterSpec) : Nat := cs.worker.length

/-- Line 151: `num_parameter_servers = len(cluster_spec.as_dict()['ps'])`. -/
def numParameterServers (cs : ClusterSpec) : Nat := cs.ps.length

/-- Message of the assertion at lines 157-158 of `train` (note the leading space). -/
def clusterAssertMsg : String := " num_workers and num_parameter_servers must be > 0."

/-- Values computed by the prelude of `train` before any op is built. -/
structure TrainPrelude where
  num_replicas_to_aggregate : Int
  is_chief : Bool
  deriving DecidableEq, Repr

/-- Lines 149-160 of `train`: resolve the local `num_replicas_to_aggregate`
(`-1` means `num_workers`), assert that the cluster has at least one worker and one
parameter server, and compute `is_chief = (task_id == 0)`. The assertion fires
before any op-building code runs; ops are built only from the returned prelude. -/
def trainPrelude (task_id : Nat) (cluster_spec : ClusterSpec)
    (num_replicas_to_aggregate : Int) : Except String TrainPrelude :=
  let num_workers := numWorkers cluster_spec
  let num_parameter_servers := numParameterServers cluster_spec
  let num_replicas_to_aggregate : Int :=
    if num_replicas_to_aggregate = -1 then (num_workers : Int)
    else num_replicas_to_aggregate
  if num_workers > 0 ∧ num_parameter_servers > 0 then
    .ok { num_replicas_to_aggregate := num_replicas_to_aggregate,
          is_chief := task_id == 0 }
  else
    .error clusterAssertMsg

/-- Line 160 of `train`: `is_chief = (task_id == 0)`. -/
def isChief (task_id : Nat) : Bool := task_id == 0

/-- Configuration handed to `tf.train.SyncReplicasOptimizer` at lines 434-435. -/
structure SyncReplicasOptimizerCfg where
  replicas_to_aggregate : Int
  replica_id : Nat
  total_num_replicas : Nat
  deriving DecidableEq, Repr

/-- Lines 430-435 of `_setup_model_loss`: the synchronous replica optimizer is
constructed with `replicas_to_aggregate` equal to the `num_replicas_to_aggregate`
parameter of `_setup_model_loss` (no `-1` resolution happens here),
`replica_id=task_id` and `total_num_replicas=num_workers`. -/
def setupModelLossOpt (task_id num_workers : Nat)
    (num_replicas_to_aggregate : Int) : SyncReplicasOptimizerCfg :=
  { replicas_to_aggregate := num_replicas_to_aggregate,
    replica_id := task_id,
    total_num_replicas := num_workers }

/-- Lines 181-182 of `train`: the call
`self._setup_model_loss(..., num_replicas_to_aggregate=-1)` passes the literal
`-1`, not the locally resolved `num_replicas_to_aggregate` of lines 152-155. -/
def trainSyncOpt (task_id : Nat) (cluster_spec : ClusterSpec) : SyncReplicasOptimizerCfg :=
  setupModelLossOpt task_id (numWorkers cluster_spec) (-1)

/-- Arguments with which `fit` invokes `train` (lines 95-96); the pass-through
arguments are kept alongside the four the claim is about. -/
structure TrainCall where
  task_id : Nat
  is_training : Bool
  start_epoch : Nat
  reuse : Option Bool
  num_replicas_to_aggregate : Int
  variables_to_train : Option (List String)
  deriving DecidableEq, Repr

/-- Lines 68-96 of `fit`: `fit` forwards `task_id` and `is_training` but invokes
`self.train(..., start_epoch=1, reuse=None, num_replicas_to_aggregate=-1,
variables_to_train=None)` with those four values hardcoded, whatever the caller
passed for the parameters of the same names. -/
def fitTrainCall (task_id : Nat) (is_training : Bool) (start_epoch : Nat)
    (reuse : Option Bool) (num_replicas_to_aggregate : Int)
    (variables_to_train : Option (List String)) : TrainCall :=
  { task_id := task_id,
    is_training := is_training,
    start_epoch := 1,
    reuse := none,
    num_replicas_to_aggregate := -1,
    variables_to_train := none }

/-- C1: the claim says that with the default `num_replicas_to_aggregate = -1` the
synchronous replica optimizer aggregates gradients from as many replicas as there
are workers in `cluster_spec`. The code resolves `-1` to `num_workers` at lines
152-153 but then discards that value: line 182 passes the literal `-1` to
`_setup_model_loss`, so `SyncReplicasOptimizer` is constructed with
`replicas_to_aggregate = -1`. Concretely, for a cluster with two workers and one
parameter server and `task_id = 0`, the prelude resolves the dead local to `2`,
yet the optimizer configuration carries `replicas_to_aggregate = -1 ≠ 2`. -/
theorem c1_replicas_to_aggregate_hardcoded :
    trainPrelude 0 ⟨["worker0", "worker1"], ["ps0"]⟩ (-1) =
      .ok { num_replicas_to_aggregate := 2, is_chief := true }
    ∧ (trainSyncOpt 0 ⟨["worker0", "worker1"], ["ps0"]⟩).replicas_to_aggregate = -1
    ∧ (trainSyncOpt 0 ⟨["worker0", "worker1"], ["ps0"]⟩).total_num_replicas = 2
    ∧ ((-1 : Int) ≠ (numWorkers ⟨["worker0", "worker1"], ["ps0"]⟩ : Int)) := by
  refine ⟨rfl, rfl, rfl, ?_⟩
  decide

/-- C3: every call to `fit` ignores the caller-supplied `start_epoch`, `reuse`,
`num_replicas_to_aggregate` and `variables_to_train`: the call into `train` always
carries `start_epoch=1`, `reuse=None`, `num_replicas_to_aggregate=-1`,
`variables_to_train=None`, and coincides with the call produced from any other
values of those four arguments. -/
theorem c3_fit_ignores_arguments (task_id : Nat) (is_training : Bool)
    (start_epoch start_epoch' : Nat) (reuse reuse' : Option Bool)
    (num_replicas_to_aggregate num_replicas_to_aggregate' : Int)
    (variables_to_train variables_to_train' : Option (List String)) :
    (fitTrainCall task_id is_training start_epoch reuse num_replicas_to_aggregate
        variables_to_train).start_epoch = 1
    ∧ (fitTrainCall task_id is_training start_epoch reuse num_replicas_to_aggregate
        variables_to_train).reuse = none
    ∧ (fitTrainCall task_id is_training start_epoch reuse num_replicas_to_aggregate
        variables_to_train).num_replicas_to_aggregate = -1
    ∧ (fitTrainCall task_id is_training start_epoch reuse num_replicas_to_aggregate
        variables_to_train).variables_to_train = none
    ∧ fitTrainCall task_id is_training start_epoch reuse num_replicas_to_aggregate
        variables_to_train
      = fitTrainCall task_id is_training start_epoch' reuse'
          num_replicas_to_aggregate' variables_to_train' :=
  ⟨rfl, rfl, rfl, rfl, rfl⟩

/-- C5: `train` raises `AssertionError` with message
`' num_workers and num_parameter_servers must be > 0.'` whenever the cluster's
worker list or parameter-server list is empty, before building any ops, and the
assertion passes (the prelude succeeds) whenever both lists are non-empty. -/
theorem c5_cluster_assert (task_id : Nat) (cluster_spec : ClusterSpec)
    (num_replicas_to_aggregate : Int) :
    (cluster_spec.worker = [] ∨ cluster_spec.ps = [] →
      trainPrelude task_id cluster_spec num_replicas_to_aggregate =
        .error clusterAssertMsg)
    ∧ (cluster_spec.worker ≠ [] → cluster_spec.ps ≠ [] →
        ∃ p, trainPrelude task_id cluster_spec num_replicas_to_aggregate = .ok p) := by
  constructor
  · intro h
    have hw : numWorkers cluster_spec = 0 ∨ numParameterServers cluster_spec = 0 := by
      rcases h with h | h <;> [left; right] <;>
        simp [numWorkers, numParameterServers, h]
    unfold trainPrelude
    rcases hw with h0 | h0 <;> simp [h0]
  · intro hw hp
    have hw' : 0 < numWorkers cluster_spec := by
      simpa [numWorkers, List.length_pos] using hw
    have hp' : 0 < numParameterServers cluster_spec := by
      simpa [numParameterServers, List.length_pos] using hp
    refine ⟨⟨if num_replicas_to_aggregate = -1 then (numWorkers cluster_spec : Int)
              else num_replicas_to_aggregate, task_id == 0⟩, ?_⟩
    unfold trainPrelude
    simp [hw', hp']

/-- Witness for C5 at a concrete empty-worker cluster and a concrete valid cluster. -/
theorem c5_cluster_assert_witness :
    trainPrelude 0 ⟨[], ["ps0"]⟩ (-1) = .error clusterAssertMsg
    ∧ ∃ p, trainPrelude 1 ⟨["worker0"], ["ps0"]⟩ (-1) = .ok p :=
  ⟨(c5_cluster_assert 0 ⟨[], ["ps0"]⟩ (-1)).1 (Or.inl rfl),
   (c5_cluster_assert 1 ⟨["worker0"], ["ps0"]⟩ (-1)).2 (by simp) (by simp)⟩

/-- Feature keys of the default `features_keys` dict built at lines 100-104 of
`_setup_data_ops` (the three default image keys). -/
def defaultFeaturesKeys : List String :=
  ["image/encoded/image", "image/format", "image/class/label"]

/-- Dataflow configuration produced by `_setup_data_ops` on success: the keys the
`Decoder` was built from, and the `Dataflow(...)` constructor arguments. -/
structure DataflowCfg where
  decoder_keys : List String
  num_readers : Nat
  shuffle : Bool
  min_queue_examples : Nat
  capacity : Nat
  deriving DecidableEq, Repr

/-- Lines 98-112, `_setup_data_ops`: the local variable `features_keys` (note the
extra `s`) is assigned only in the `feature_keys is None` branch; `Decoder(features_keys)`
at line 106 then reads it, raising `UnboundLocalError`/`NameError` whenever
`feature_keys` was not `None`. The unassigned local is modelled as `none`. -/
def setupDataOps (feature_keys : Option (List String))
    (num_readers min_queue_examples capacity : Nat) : Except PyError DataflowCfg :=
  let features_keys : Option (List String) :=
    match feature_keys with
    | none => some defaultFeaturesKeys
    | some _ => none
  match features_keys with
  | none => .error .nameError
  | some ks =>
      .ok { decoder_keys := ks,
            num_readers := num_readers,
            shuffle := true,
            min_queue_examples := min_queue_examples,
            capacity := capacity }

/-- C9: `_setup_data_ops` raises `NameError` for every non-`None` `feature_keys`
argument, and in the only succeeding case (`feature_keys=None`) the dataflow is
built from the three default image keys, so a caller-supplied `feature_keys` is
never used. -/
theorem c9_setup_data_ops_name_error (feature_keys : List String)
    (num_readers min_queue_examples capacity : Nat) :
    setupDataOps (some feature_keys) num_readers min_queue_examples capacity =
      .error .nameError
    ∧ setupDataOps none num_readers min_queue_examples capacity =
        .ok { decoder_keys := defaultFeaturesKeys,
              num_readers := num_readers,
              shuffle := true,
              min_queue_examples := min_queue_examples,
              capacity := capacity } :=
  ⟨rfl, rfl⟩

/-- Values held in the `cnf` training-config dict. -/
inductive CnfV
  | s (v : String)
  | n (v : Nat)
  deriving DecidableEq, Repr

/-- Training-config dict `cnf`, modelled as an association list. -/
abbrev Cnf : Type := List (String × CnfV)

/-- Python `cnf.get(key)` without a default: `none` when the key is absent. -/
def cnfGet (c : Cnf) (key : String) : Option CnfV :=
  (List.find? (fun kv => kv.1 == key) c).map (fun kv => kv.2)

/-- Python `cnf.get(key, default)`. -/
def cnfGetD (c : Cnf) (key : String) (default : CnfV) : CnfV :=
  (cnfGet c key).getD default

/-- Instance-attribute state of a `DistSupervisedTrainer` object; a `none` field
is an attribute that has not been assigned, and reading it raises
`AttributeError`. A fresh instance starts with every field `none`. -/
structure TrainerAttrs where
  model : Option Nat := none
  cnf : Option Cnf := none
  clip_by_global_norm : Option Bool := none
  gradient_noise_scale : Option (Option Nat) := none
  gradient_multipliers : Option (Option Nat) := none
  aggregation_method : Option (Option Nat) := none
  colocate_gradients_with_ops : Option Bool := none
  dataset_name : Option CnfV := none
  num_readers : Option CnfV := none
  min_queue_examples : Option CnfV := none
  capacity : Option CnfV := none
  feature_keys : Option (Option CnfV) := none
  deriving DecidableEq, Repr

/-- Modelled from the spec: `Base.__init__` (class `Base` of `tefla/core/base.py`,
imported at line 12 but not present under `src/`) is the base-class ctor that the
claim describes as "the base-class initializer that would set it": it stores the
`model` and the `cnf` training-config dict on the instance. -/
def baseInitSets (model : Nat) (cnf : Cnf) (s : TrainerAttrs) : TrainerAttrs :=
  { s with model := some model, cnf := some cnf }

/-- Lines 54-66, `DistSupervisedTrainer.__init__`, as explicit attribute-state
passing on a fresh instance: lines 55-59 assign the five gradient-related
attributes, line 60 then evaluates `self.cnf.get('dataset_name', 'imagenet')`.
`self.cnf` has not been assigned at that point (the `super().__init__` call that
would assign it is at lines 65-66), so the read raises `AttributeError` and the
assignments of lines 60-64 and the base-class call are never reached. -/
def distTrainerInit (model : Nat) (cnf : Cnf) (clip_by_global_norm : Bool)
    (gradient_noise_scale gradient_multipliers aggregation_method : Option Nat)
    (colocate_gradients_with_ops : Bool) : Except PyError TrainerAttrs :=
  let s : TrainerAttrs := {}
  let s := { s with clip_by_global_norm := some clip_by_global_norm }
  let s := { s with gradient_noise_scale := some gradient_noise_scale }
  let s := { s with gradient_multipliers := some gradient_multipliers }
  let s := { s with aggregation_method := some aggregation_method }
  let s := { s with colocate_gradients_with_ops := some colocate_gradients_with_ops }
  match s.cnf with
  | none => .error .attributeError
  | some c =>
      let s := { s with dataset_name := some (cnfGetD c "dataset_name" (.s "imagenet")) }
      let s := { s with num_readers := some (cnfGetD c "num_readers" (.n 8)) }
      let s := { s with min_queue_examples := some (cnfGetD c "min_queue_examples" (.n 1000)) }
      let s := { s with capacity := some (cnfGetD c "capacity" (.n 2000)) }
      let s := { s with feature_keys := some (cnfGet c "feature_keys") }
      .ok (baseInitSets model cnf s)

/-- C8: for every `model` and `cnf` argument (and any values of the keyword
arguments), constructing `DistSupervisedTrainer` raises `AttributeError`: line 60
reads `self.cnf` before the base-class ctor `baseInitSets` — which is the one that
stores `cnf` on the instance — has run, so the body never gets past line 59. -/
theorem c8_init_raises_attribute_error (model : Nat) (cnf : Cnf)
    (clip_by_global_norm : Bool)
    (gradient_noise_scale gradient_multipliers aggregation_method : Option Nat)
    (colocate_gradients_with_ops : Bool) (s : TrainerAttrs) :
    distTrainerInit model cnf clip_by_global_norm gradient_noise_scale
        gradient_multipliers aggregation_method colocate_gradients_with_ops =
      .error .attributeError
    ∧ (baseInitSets model cnf s).cnf = some cnf :=
  ⟨rfl, rfl⟩

/-- Actions of the chief-gated code regions of `train`. -/
inductive ChiefAction
  | startChiefQueueRunners
  | runInitTokensOp
  | loadWeights (path : String)
  | saveCheckpoint
  deriving DecidableEq, Repr

/-- Lines 210-218 of `train`: when `is_chief`, the chief queue runners are started
(line 211) and the init-tokens op is run (line 212); then `weights_from` is
assigned only when `start_epoch > 1` (lines 213-215), so the read at line 217
raises `UnboundLocalError` when `start_epoch ≤ 1`; otherwise the checkpoint named
`weights/model-epoch-<start_epoch-1>.ckpt` is loaded. A non-chief worker skips the
whole block. Returns the actions performed and the error, if any. -/
def chiefInitBlock (is_chief : Bool) (start_epoch : Nat) :
    List ChiefAction × Option PyError :=
  if is_chief then
    let acts := [ChiefAction.startChiefQueueRunners, ChiefAction.runInitTokensOp]
    let weights_from : Option String :=
      if start_epoch > 1 then
        some ("weights/model-epoch-" ++ toString (start_epoch - 1) ++ ".ckpt")
      else none
    match weights_from with
    | none => (acts, some .nameError)
    | some w => (acts ++ [ChiefAction.loadWeights w], none)
  else ([], none)

/-- Lines 315-317 of `train`: the per-epoch checkpoint save, executed only when
`is_chief`. -/
def epochCheckpointSave (is_chief : Bool) : List ChiefAction :=
  if is_chief then [ChiefAction.saveCheckpoint] else []

/-- Lines 340-344 of `train`: the final checkpoint save after the loop, executed
only when `is_chief`. -/
def finalCheckpointSave (is_chief : Bool) : List ChiefAction :=
  if is_chief then [ChiefAction.saveCheckpoint] else []

/-- C2: a worker is treated as chief exactly when `task_id = 0`, and each
chief-gated action region of `train` — starting the chief queue runners, running
the init-tokens op, the per-epoch checkpoint save and the final checkpoint save —
performs its actions exactly when `task_id = 0`; for `task_id ≠ 0` all four
regions perform nothing. -/
theorem c2_chief_gating (task_id start_epoch : Nat) :
    isChief task_id = decide (task_id = 0)
    ∧ (chiefInitBlock (isChief task_id) start_epoch).1 =
        (if task_id = 0 then
          [ChiefAction.startChiefQueueRunners, ChiefAction.runInitTokensOp] ++
            (if start_epoch > 1 then
              [ChiefAction.loadWeights
                ("weights/model-epoch-" ++ toString (start_epoch - 1) ++ ".ckpt")]
             else [])
         else [])
    ∧ epochCheckpointSave (isChief task_id) =
        (if task_id = 0 then [ChiefAction.saveCheckpoint] else [])
    ∧ finalCheckpointSave (isChief task_id) =
        (if task_id = 0 then [ChiefAction.saveCheckpoint] else []) := by
  refine ⟨by cases task_id <;> rfl, ?_, ?_, ?_⟩ <;>
    by_cases h : task_id = 0 <;>
      by_cases h2 : start_epoch > 1 <;>
        simp [chiefInitBlock, epochCheckpointSave, finalCheckpointSave, isChief, h, h2]

/-- Result of one iteration of the outer `while not sv.should_stop()` loop of
`train` (lines 224-328): how many training steps and validation steps were run by
`sess.run`, the error (if an exception aborted the epoch; it is re-raised at line
334 after `clean_up_op`), the epoch counter afterwards, and whether the local
`format_str` is bound afterwards. -/
structure EpochResult where
  trainStepsRun : Nat
  valStepsRun : Nat
  err : Option PyError
  epochAfter : Nat
  fsBoundAfter : Bool
  deriving DecidableEq, Repr

/-- Lines 229-265, the training loop `for iteration in range(n_iters_per_epoch)`.
The environment supplies, per iteration index, the global-step value observed by
`sess.run([train_op, global_step])` (`steps`) and whether the observed loss is NaN
(`lossNaN`). Per iteration, in source order: the step executes (counted); the NaN
assertion at lines 235-236 raises `AssertionError` on a NaN loss; `if step >
max_steps: break` at lines 237-238 exits the loop; the locals `examples_per_sec`
and `format_str` are assigned only under `if step % 30 == 0` (lines 241-245); the
`log.info(format_str % ...)` call at lines 246-247 then reads them, raising
`UnboundLocalError` whenever they are still unbound. Timing, summary logging and
learning-rate bookkeeping (lines 239-240, 249-264) touch no modelled state.
Returns (steps executed, `format_str` bound, error). -/
def trainStepsLoop (steps : Nat → Nat) (lossNaN : Nat → Bool) (max_steps : Nat) :
    Nat → Nat → Bool → Nat × Bool × Option PyError
  | _, 0, fsBound => (0, fsBound, none)
  | i, n + 1, fsBound =>
    let step := steps i
    if lossNaN i then
      (1, fsBound, some (.assertionError "Model diverged with loss = NaN"))
    else if step > max_steps then
      (1, fsBound, none)
    else
      let fsBound := fsBound || step % 30 == 0
      if fsBound then
        let r := trainStepsLoop steps lossNaN max_steps (i + 1) n fsBound
        (r.1 + 1, r.2.1, r.2.2)
      else
        (1, fsBound, some .nameError)

/-- Lines 224-328, one iteration of the outer epoch loop, for a worker that
reaches it: the training loop runs (lines 229-265); `np.average(training_losses,
weights=batch_train_sizes)` at lines 266-267 raises `ZeroDivisionError` when no
training step ran; the validation loop (lines 275-295) then runs exactly
`n_val_iters_per_epoch` iterations, and `np.average(validation_losses, ...)` at
lines 297-298 raises `ZeroDivisionError` when that count is zero; finally `epoch
+= 1` at line 328. An exception anywhere aborts the epoch (lines 329-334): the
remaining steps do not run and the epoch counter is not incremented. -/
def epochLoopBody (steps : Nat → Nat) (lossNaN : Nat → Bool)
    (n_iters_per_epoch n_val_iters_per_epoch max_steps epoch : Nat)
    (fsBound : Bool) : EpochResult :=
  let r := trainStepsLoop steps lossNaN max_steps 0 n_iters_per_epoch fsBound
  match r with
  | (c, fs, some e) =>
      { trainStepsRun := c, valStepsRun := 0, err := some e,
        epochAfter := epoch, fsBoundAfter := fs }
  | (c, fs, none) =>
      if c = 0 then
        { trainStepsRun := c, valStepsRun := 0, err := some .zeroDivisionError,
          epochAfter := epoch, fsBoundAfter := fs }
      else if n_val_iters_per_epoch = 0 then
        { trainStepsRun := c, valStepsRun := 0, err := some .zeroDivisionError,
          epochAfter := epoch, fsBoundAfter := fs }
      else
        { trainStepsRun := c, valStepsRun := n_val_iters_per_epoch, err := none,
          epochAfter := epoch + 1, fsBoundAfter := fs }

/-- C4: the claim says each epoch runs exactly `n_iters_per_epoch` training steps
(fewer only if the global step exceeds `max_steps`) followed by exactly
`n_val_iters_per_epoch` validation steps, then increments the epoch counter.
The code diverges: in an epoch whose first training step observes a global step
that is not a multiple of 30 (here the typical fresh run, observed steps
1, 2, ...), the `log.info(format_str % ...)` call at lines 246-247 reads the
still-unbound local `format_str` (bound only under `if step % 30 == 0`, lines
241-245) and raises `UnboundLocalError`: with `n_iters_per_epoch = 2`,
`n_val_iters_per_epoch = 1` and `max_steps = 10000000`, only 1 training step and
0 validation steps run, the epoch counter stays at 1, and no observed step
exceeded `max_steps`. In contrast, in an environment whose observed steps are all
multiples of 30 the epoch behaves exactly as the claim says, showing the unbound
local is the sole obstacle at this input. -/
theorem c4_epoch_aborts_on_unbound_format_str :
    (epochLoopBody (fun i => i + 1) (fun _ => false) 2 1 10000000 1 false).trainStepsRun = 1
    ∧ (epochLoopBody (fun i => i + 1) (fun _ => false) 2 1 10000000 1 false).valStepsRun = 0
    ∧ (epochLoopBody (fun i => i + 1) (fun _ => false) 2 1 10000000 1 false).err =
        some PyError.nameError
    ∧ (epochLoopBody (fun i => i + 1) (fun _ => false) 2 1 10000000 1 false).epochAfter = 1
    ∧ (List.range 1).all (fun i => i + 1 ≤ 10000000) = true
    ∧ (epochLoopBody (fun _ => 30) (fun _ => false) 2 1 10000000 1 false) =
        { trainStepsRun := 2, valStepsRun := 1, err := none,
          epochAfter := 2, fsBoundAfter := true } := by
  refine ⟨rfl, rfl, rfl, rfl, ?_, rfl⟩
  decide

mutual
/-- Symbolic tensors built by `create_train_op`. `base` is an incoming tensor
(such as the `total_loss` argument); `withBarrier u t` is
`tf.with_dependencies([barrier], t)` where `barrier` is the `update_barrier`
no-op created under `tf.control_dependencies(update_ops)` (lines 480-483), with
`u` the external ids of those update ops; `checkNumerics` is line 509-510;
`withGradUpdates g t` is `tf.with_dependencies([grad_updates], t)` (line 513)
where `grad_updates = optimizer.apply_gradients(g, global_step)` (lines 504-505):
evaluating the tensor first runs the gradient-application op on `g`. -/
inductive Tensor
  | base (id : Nat)
  | withBarrier (update_ops : List Nat) (t : Tensor)
  | checkNumerics (t : Tensor) (msg : String)
  | withGradUpdates (g : Grads) (t : Tensor)

/-- Symbolic `grads_and_vars` pipelines of `create_train_op` (lines 492-502):
`optimizer.compute_gradients(total_loss, variables_to_train, ...)`, the two
clipping helpers, and `_multiply_gradients`. -/
inductive Grads
  | computeGradients (loss : Tensor) (vars : List String)
  | clipGradNorms (g : Grads) (max_norm : Nat)
  | clipGradGlobalNorms (vars : List String) (loss : Tensor) (global_norm : Nat)
  | multiplyGradients (g : Grads)
end

/-- Value-producing core of a tensor: `tf.with_dependencies` and
`tf.check_numerics` yield the value of the wrapped tensor (the latter whenever it
is finite), so stripping the wrappers recovers the tensor whose value the whole
expression produces. -/
def Tensor.strip : Tensor → Tensor
  | .base id => .base id
  | .withBarrier _ t => t.strip
  | .checkNumerics t _ => t.strip
  | .withGradUpdates _ t => t.strip

/-- Gradient-application ops that run whenever the tensor is evaluated: every
`withGradUpdates` wrapper forces its `apply_gradients` op as a control
dependency before the value is produced. -/
def Tensor.forcedGradUpdates : Tensor → List Grads
  | .base _ => []
  | .withBarrier _ t => t.forcedGradUpdates
  | .checkNumerics t _ => t.forcedGradUpdates
  | .withGradUpdates g t => g :: t.forcedGradUpdates

/-- Lines 438-513, `create_train_op` (the `global_step` creation at lines 465-467
builds a variable and is not observable here). In source order: `update_ops`
defaults to the `GraphKeys.UPDATE_OPS` collection (lines 470-474); a non-empty
`update_ops` wraps `total_loss` with the `update_barrier` dependency (lines
480-483); `variables_to_train` defaults to `tf.trainable_variables()`, each
supplied variable must be trainable and the list must be non-empty, else the
plain `assert`s at lines 488-491 raise `AssertionError` (no message); the
gradients are computed and clipped (lines 492-498), optionally multiplied (lines
500-502); `apply_gradients` makes `grad_updates` (lines 504-505); `total_loss` is
wrapped in `check_numerics` (lines 507-510); and the returned tensor is
`tf.with_dependencies([grad_updates], total_loss)` (line 513). -/
def createTrainOp (total_loss : Tensor) (global_update_ops : List Nat)
    (update_ops : Option (List Nat)) (trainable_variables : List String)
    (variables_to_train : Option (List String))
    (clip_grad_global_norm has_gradient_multipliers : Bool) :
    Except PyError Tensor :=
  let update_ops := update_ops.getD global_update_ops
  let total_loss :=
    if update_ops.isEmpty then total_loss
    else Tensor.withBarrier update_ops total_loss
  let vars_ok :=
    match variables_to_train with
    | none => true
    | some vs => vs.all (fun v => trainable_variables.contains v)
  if vars_ok then
    let vars := variables_to_train.getD trainable_variables
    if vars.isEmpty then .error (.assertionError "")
    else
      let grads :=
        if clip_grad_global_norm then Grads.clipGradGlobalNorms vars total_loss 8
        else Grads.clipGradNorms (Grads.computeGradients total_loss vars) 8
      let grads :=
        if has_gradient_multipliers then Grads.multiplyGradients grads else grads
      .ok (Tensor.withGradUpdates grads
            (Tensor.checkNumerics total_loss "LossTensor is inf or nan"))
  else .error (.assertionError "")

/-- C6: whenever `create_train_op` returns a tensor, that tensor is the incoming
`total_loss` (same value-producing core) wrapped in the `check_numerics` guard
and carrying the `apply_gradients` op as a control dependency, so evaluating the
returned loss forces the aggregated gradient update to be applied first. -/
theorem c6_train_op_forces_apply_gradients (total_loss : Tensor)
    (global_update_ops : List Nat) (update_ops : Option (List Nat))
    (trainable_variables : List String) (variables_to_train : Option (List String))
    (clip_grad_global_norm has_gradient_multipliers : Bool) (t : Tensor)
    (h : createTrainOp total_loss global_update_ops update_ops trainable_variables
          variables_to_train clip_grad_global_norm has_gradient_multipliers = .ok t) :
    ∃ g inner,
      t = Tensor.withGradUpdates g
            (Tensor.checkNumerics inner "LossTensor is inf or nan")
      ∧ g ∈ t.forcedGradUpdates
      ∧ t.strip = total_loss.strip := by
  unfold createTrainOp at h
  dsimp only at h
  split at h
  · split at h
    · simp at h
    · rw [Except.ok.injEq] at h
      subst h
      refine ⟨_, _, rfl, ?_, ?_⟩
      · simp [Tensor.forcedGradUpdates]
      · simp only [Tensor.strip]
        split <;> simp [Tensor.strip]
  · simp at h

/-- Witness for C6 at a concrete call: incoming loss `base 0`, empty update-op
collection, one trainable variable, defaults everywhere. -/
theorem c6_train_op_forces_apply_gradients_witness :
    ∃ g inner,
      Tensor.withGradUpdates
          (Grads.clipGradNorms (Grads.computeGradients (Tensor.base 0) ["w"]) 8)
          (Tensor.checkNumerics (Tensor.base 0) "LossTensor is inf or nan")
        = Tensor.withGradUpdates g
            (Tensor.checkNumerics inner "LossTensor is inf or nan")
      ∧ g ∈ (Tensor.withGradUpdates
          (Grads.clipGradNorms (Grads.computeGradients (Tensor.base 0) ["w"]) 8)
          (Tensor.checkNumerics (Tensor.base 0)
            "LossTensor is inf or nan")).forcedGradUpdates
      ∧ (Tensor.withGradUpdates
          (Grads.clipGradNorms (Grads.computeGradients (Tensor.base 0) ["w"]) 8)
          (Tensor.checkNumerics (Tensor.base 0)
            "LossTensor is inf or nan")).strip = (Tensor.base 0).strip :=
  c6_train_op_forces_apply_gradients (Tensor.base 0) [] none ["w"] none false false
    (Tensor.withGradUpdates
      (Grads.clipGradNorms (Grads.computeGradients (Tensor.base 0) ["w"]) 8)
      (Tensor.checkNumerics (Tensor.base 0) "LossTensor is inf or nan")) rfl

/-- Per-worker events of the session-acquisition sequence of `train` (lines
193-212) and the subsequent training steps. The only session-obtaining call in
the code is `sv.prepare_or_wait_for_session` (line 201); the `init_op` is handed
to the `Supervisor` at line 193 and is never passed to `sess.run` by any worker,
so no `WEvent` for a worker running the init op itself exists. -/
inductive WEvent
  | createSupervisor
  | sessionPrepareOrWait
  | startQueueRunners
  | startChiefQueueRunners
  | runInitTokens
  | trainStep (i : Nat)
  deriving DecidableEq, Repr

/-- Program-order event list of a worker in `train`: create the supervisor (line
193), obtain the session via `prepare_or_wait_for_session` (line 201), start the
input queue runners (line 206), then — chief only — start the chief queue runners
and run the init-tokens op (lines 210-212), then the training steps of the loop
(lines 229-234). -/
def workerTrace (task_id n_steps : Nat) : List WEvent :=
  WEvent.createSupervisor :: WEvent.sessionPrepareOrWait :: WEvent.startQueueRunners ::
    ((if isChief task_id then
        [WEvent.startChiefQueueRunners, WEvent.runInitTokens] else [])
      ++ (List.range n_steps).map WEvent.trainStep)

/-- Modelled from the spec: the blocking semantics of the framework's
supervisor/coordinator abstraction (`tf.train.Supervisor`, not part of this
repository), per the spec's "a designated chief process coordinates checkpointing
and initialization while other workers wait". A run assigns each worker's `p`-th
program-order event a global time; events of one worker happen in program order
(`mono`), and a non-chief worker's `prepare_or_wait_for_session` (position 1 of
its trace) returns only after the chief's session preparation — which runs the
`init_op` — has completed (position 1 of the chief's trace): `waitForChief`. -/
structure DistRun where
  time : Nat → Nat → Nat
  mono : ∀ w p q, p < q → time w p < time w q
  waitForChief : ∀ w, w ≠ 0 → time 0 1 < time w 1

/-- C7: every worker obtains its session via the supervisor's prepare-or-wait
path (position 1 of its program order), a non-chief worker never runs the
init-tokens op (and has no event running any init op itself), and in every run no
training step of any worker happens before the chief's session preparation — the
step that performs model initialization — has completed. -/
theorem c7_no_training_before_chief_init (n_steps : Nat) (run : DistRun)
    (w p k : Nat) (h : (workerTrace w n_steps)[p]? = some (WEvent.trainStep k)) :
    (workerTrace w n_steps)[1]? = some WEvent.sessionPrepareOrWait
    ∧ (w ≠ 0 → WEvent.runInitTokens ∉ workerTrace w n_steps)
    ∧ run.time 0 1 < run.time w p := by
  refine ⟨rfl, ?_, ?_⟩
  · intro hw
    have hc : isChief w = false := by
      simp [isChief, hw]
    simp [workerTrace, hc, List.mem_map]
  · have hp1 : 1 < p := by
      rcases p with _ | p
      · simp [workerTrace] at h
      · rcases p with _ | p
        · simp [workerTrace] at h
        · omega
    rcases eq_or_ne w 0 with hw | hw
    · subst hw
      exact run.mono 0 1 p hp1
    · exact lt_trans (run.waitForChief w hw) (run.mono w 1 p hp1)

/-- Sample run for the C7 witness: worker `w`'s `p`-th event happens at time
`1000 * p + w`. -/
def sampleRun : DistRun where
  time := fun w p => 1000 * p + w
  mono := by
    intro w p q hpq
    dsimp only
    omega
  waitForChief := by
    intro w hw
    dsimp only
    omega

/-- Witness for C7: in `sampleRun`, worker 1 (non-chief, trace
`[createSupervisor, sessionPrepareOrWait, startQueueRunners, trainStep 0]`)
runs its training step (position 3) after the chief's session preparation. -/
theorem c7_no_training_before_chief_init_witness :
    (workerTrace 1 1)[1]? = some WEvent.sessionPrepareOrWait
    ∧ (1 ≠ 0 → WEvent.runInitTokens ∉ workerTrace 1 1)
    ∧ sampleRun.time 0 1 < sampleRun.time 1 3 :=
  c7_no_training_before_chief_init 1 sampleRun 1 3 0 rfl

/-- Device specification with the two fields the embedded scopes set. -/
structure DeviceSpec where
  job : Option String
  task : Option Nat
  deriving DecidableEq, Repr

/-- Nested `tf.device` scopes: a field set by the inner device takes precedence,
a field the inner device leaves unset is filled from the outer scope. -/
def DeviceSpec.mergeInto (outer inner : DeviceSpec) : DeviceSpec :=
  { job := match inner.job with | some j => some j | none => outer.job,
    task := match inner.task with | some t => some t | none => outer.task }

/-- String form of a device, as TensorFlow renders it. -/
def DeviceSpec.render (d : DeviceSpec) : String :=
  match d.job, d.task with
  | some j, some t => "/job:" ++ j ++ "/task:" ++ toString t
  | some j, none => "/job:" ++ j
  | none, some t => "/task:" ++ toString t
  | none, none => ""

/-- Kinds of ops built inside the device scopes of `train`: the trainable
variables (numbered in creation order) and every other op. -/
inductive BuiltOp
  | variableOp (i : Nat)
  | computeOp
  deriving DecidableEq, Repr

/-- Modelled from the spec: the framework's replica device placement strategy
(`tf.replica_device_setter(cluster=cluster_spec)` at line 164, not part of this
repository), per the spec's "a replica-aware device placement strategy" and
"Parameter server: a process holding a shard of the model's trainable variables":
it is a device function placing the `i`-th variable on parameter-server task
`i % num_parameter_servers` (round robin across the cluster's `ps` entries) and
leaving every other op on the default worker device `/job:worker` (no task). -/
def replicaDeviceSetter (cluster_spec : ClusterSpec) : BuiltOp → DeviceSpec
  | .variableOp i =>
      { job := some "ps", task := some (i % numParameterServers cluster_spec) }
  | .computeOp => { job := some "worker", task := none }

/-- Line 163 of `train`: the outer scope `tf.device('/job:worker/task:%d' % task_id)`. -/
def workerDeviceScope (task_id : Nat) : DeviceSpec :=
  { job := some "worker", task := some task_id }

/-- Lines 162-169 of `train`: ops are built under the outer worker scope (line
163) with the replica device placement strategy nested inside it (line 164), so
each op's device is the setter's choice filled from the worker scope. -/
def trainOpDevice (task_id : Nat) (cluster_spec : ClusterSpec) (op : BuiltOp) :
    DeviceSpec :=
  (workerDeviceScope task_id).mergeInto (replicaDeviceSetter cluster_spec op)

/-- C10: every non-variable op built by `train` for worker `task_id` is assigned
the device `/job:worker/task:<task_id>`, and the trainable variables are spread
round-robin over the cluster's parameter-server tasks — in particular, when there
are `n > 0` parameter servers, parameter server `p < n` holds variable `p` (and
every variable `i` with `i % n = p`), so each parameter server holds a shard of
the trainable variables. -/
theorem c10_device_placement (task_id : Nat) (cluster_spec : ClusterSpec) (i : Nat) :
    trainOpDevice task_id cluster_spec .computeOp =
      { job := some "worker", task := some task_id }
    ∧ (trainOpDevice task_id cluster_spec .computeOp).render =
        "/job:worker/task:" ++ toString task_id
    ∧ trainOpDevice task_id cluster_spec (.variableOp i) =
        { job := some "ps", task := some (i % numParameterServers cluster_spec) }
    ∧ (∀ p, p < numParameterServers cluster_spec →
        trainOpDevice task_id cluster_spec (.variableOp p) =
          { job := some "ps", task := some p }) := by
  refine ⟨rfl, rfl, rfl, ?_⟩
  intro p hp
  simp [trainOpDevice, replicaDeviceSetter, workerDeviceScope, DeviceSpec.mergeInto,
    Nat.mod_eq_of_lt hp]

/-- Witness for C10 at a concrete cluster of one worker and two parameter
servers, worker task 3: ops on `/job:worker/task:3`, variable 5 on ps task 1,
and ps task 1 holds variable 1. -/
theorem c10_device_placement_witness :
    trainOpDevice 3 ⟨["w0"], ["ps0", "ps1"]⟩ .computeOp =
      { job := some "worker", task := some 3 }
    ∧ (trainOpDevice 3 ⟨["w0"], ["ps0", "ps1"]⟩ .computeOp).render = "/job:worker/task:3"
    ∧ trainOpDevice 3 ⟨["w0"], ["ps0", "ps1"]⟩ (.variableOp 5) =
        { job := some "ps", task := some 1 }
    ∧ trainOpDevice 3 ⟨["w0"], ["ps0", "ps1"]⟩ (.variableOp 1) =
        { job := some "ps", task := some 1 } :=
  ⟨(c10_device_placement 3 ⟨["w0"], ["ps0", "ps1"]⟩ 5).1,
   (c10_device_placement 3 ⟨["w0"], ["ps0", "ps1"]⟩ 5).2.1,
   (c10_device_placement 3 ⟨["w0"], ["ps0", "ps1"]⟩ 5).2.2.1,
   (c10_device_placement 3 ⟨["w0"], ["ps0", "ps1"]⟩ 5).2.2.2 1 (by decide)⟩

end Tefla
